import Mathlib

/-!
Verification of the counting/tracking-state engine of the AI-Traffic-System
backend (src/backend/server.py), as a shallow embedding.

The embedding mirrors the Python source at the granularity of its
lock-protected sections: each `with state_lock:` block of the source (the
upload handler's state mutation, the processing loop's reset consumption,
one per-detection update, and the stale-track prune) becomes one atomic
event on the shared state, and concurrent interleavings of the upload
handler with the processing loop are arbitrary event sequences.

Numeric conventions: centroid coordinates (Python floats produced by
`float(x)`, `float(y)`) are embedded as `Int`; only their order relative to
`line_y` matters to the engine.  `line_y = int(height // 1.5)` is embedded
as `(2 * height) / 3` in `Nat` (floor division by 3/2).  Track ids
(`.int().cpu().tolist()`) are embedded as `Nat`, class indices as `Nat`.
-/

namespace AITraffic

/-- COCO class indices to names: `TARGET_CLASSES` in src/backend/server.py. -/
def TARGET_CLASSES : List (Nat × String) :=
  [(0, "Person"), (1, "Bicycle"), (2, "Car"), (3, "Motorcycle"), (5, "Bus"), (7, "Truck")]

/-- The recognized class names (the values of `TARGET_CLASSES`). -/
def targetNames : List String := TARGET_CLASSES.map Prod.snd

/-- A centroid position `(cx, cy)` as appended to `track_history`. -/
abbrev Pos := Int × Int

/-- One detection delivered by the external tracker for one frame:
`(track_id, cls, cx, cy)` from the zip over `boxes, track_ids, clss`. -/
structure Det where
  track_id : Nat
  cls : Nat
  cx : Int
  cy : Int
deriving DecidableEq, Repr

/-- The shared mutable state of server.py plus the processing loop's
source-bound locals: globals `current_video_source`, `video_needs_reset`,
`track_history`, `cumulative_counts`, `counted_ids`, and the loop locals
`cap` (which source it is bound to) and `line_y`.  `track_history` is a
total function with `[]` for absent ids (a `defaultdict(list)`);
`counted_ids` is a duplicate-free list standing for the Python set. -/
structure SysState where
  current_video_source : String
  video_needs_reset : Bool
  bound_source : String
  line_y : Int
  track_history : Nat → List Pos
  cumulative_counts : String → Nat
  counted_ids : List Nat

/-- `int(cap.get(cv2.CAP_PROP_FRAME_HEIGHT) // 1.5)`: floor division of the
frame height by 1.5, i.e. `(2 * h) / 3` in natural-number arithmetic. -/
def lineYOf (h : Nat) : Int := ((2 * h) / 3 : Nat)

/-- The state at the top of `process_video` (module-level initializers plus
the initial `cap`/`line_y` binding); `fh` maps a source path to the frame
height `cap.get(CAP_PROP_FRAME_HEIGHT)` reports for it. -/
def initState (fh : String → Nat) : SysState :=
  { current_video_source := "traffic_video.mp4"
    video_needs_reset := false
    bound_source := "traffic_video.mp4"
    line_y := lineYOf (fh "traffic_video.mp4")
    track_history := fun _ => []
    cumulative_counts := fun _ => 0
    counted_ids := [] }

/-- The upload endpoint `upload_video` (src/backend/server.py lines 78-102),
restricted to its effect on shared state.  The request is `none` when no
"video" part is present, `some filename` otherwise; `secure_filename` is
modelled as the identity and `os.path.join(UPLOAD_FOLDER, ...)` as the
"uploads/" prefix.  Returns the HTTP status code and the new state. -/
def upload_video (req : Option String) (s : SysState) : Nat × SysState :=
  match req with
  | none => (400, s)
  | some filename =>
    if filename = "" then (400, s)
    else
      let filepath := "uploads/" ++ filename
      (200, { s with
        current_video_source := filepath
        video_needs_reset := true
        cumulative_counts := fun _ => 0
        counted_ids := []
        track_history := fun _ => [] })

/-- The reset-consumption block at the top of the processing loop
(lines 116-121): if `video_needs_reset`, rebind `cap` to
`current_video_source`, recompute `line_y`, and clear the flag. -/
def consumeResetIfPending (fh : String → Nat) (s : SysState) : SysState :=
  if s.video_needs_reset then
    { s with
      bound_source := s.current_video_source
      line_y := lineYOf (fh s.current_video_source)
      video_needs_reset := false }
  else s

/-- The history update for one detection (lines 163-166): append the
position; if the window now exceeds 30 entries, pop the oldest. -/
def updateTrack (track : List Pos) (p : Pos) : List Pos :=
  let t := track ++ [p]
  if t.length > 30 then t.tail else t

/-- The crossing test (lines 168-173) on the updated window: requires more
than one recorded position; with `prev_y` the second-to-last recorded y
(`track[-2][1]`) and `curr_y` the last (`track[-1][1]`), fires iff
`prev_y < line_y <= curr_y`. -/
def crossing (track : List Pos) (line_y : Int) : Bool :=
  if track.length > 1 then
    match track.dropLast.getLast?, track.getLast? with
    | some prev, some curr => decide (prev.2 < line_y) && decide (line_y ≤ curr.2)
    | _, _ => false
  else false

/-- Processing of one detection inside the per-detection lock section
(lines 152-176): skip unrecognized classes; update the track window; on a
downward crossing by a not-yet-counted track, increment that class's
cumulative count and record the track id. -/
def processDetection (line_y : Int) (s : SysState) (d : Det) : SysState :=
  match TARGET_CLASSES.lookup d.cls with
  | none => s
  | some class_name =>
    let track := updateTrack (s.track_history d.track_id) (d.cx, d.cy)
    let s1 := { s with
      track_history := fun id => if id = d.track_id then track else s.track_history id }
    if crossing track line_y then
      if d.track_id ∈ s1.counted_ids then s1
      else { s1 with
        cumulative_counts := fun n =>
          if n = class_name then s1.cumulative_counts n + 1 else s1.cumulative_counts n
        counted_ids := d.track_id :: s1.counted_ids }
    else s1

/-- The stale-track cleanup (lines 202-205): delete every history entry
whose id is not in this frame's active set. -/
def pruneHistory (s : SysState) (active_ids : List Nat) : SysState :=
  { s with
    track_history := fun id => if id ∈ active_ids then s.track_history id else [] }

/-- One atomic event on the shared state: one lock-protected section of the
source.  Concurrent uploads may interleave anywhere between the loop's
sections. -/
inductive Ev where
  | upload (req : Option String)
  | consumeReset
  | detect (d : Det)
  | prune (active_ids : List Nat)
deriving DecidableEq, Repr

/-- Whether an event is an upload request (a reset-request boundary). -/
def Ev.isUpload : Ev → Bool
  | .upload _ => true
  | _ => false

/-- The effect of one event on the shared state.  A `detect` event uses the
loop's current `line_y` local, as the source does. -/
def step (fh : String → Nat) (s : SysState) : Ev → SysState
  | .upload req => (upload_video req s).2
  | .consumeReset => consumeResetIfPending fh s
  | .detect d => processDetection s.line_y s d
  | .prune a => pruneHistory s a

/-- Run a sequence of events from a state. -/
def run (fh : String → Nat) (s : SysState) (evs : List Ev) : SysState :=
  evs.foldl (step fh) s

/-- `sum(cumulative_counts.values())`: the counts dictionary holds exactly
the recognized class names as keys. -/
def sumOverTargets (c : String → Nat) : Nat :=
  (targetNames.map c).sum

/-- `total_cumulative` (lines 206-212): the aggregate fed to the alert
logic — the sum over Car, Bus, Truck, Person and Bicycle. -/
def total_cumulative (c : String → Nat) : Nat :=
  c "Car" + c "Bus" + c "Truck" + c "Person" + c "Bicycle"

/-- The alert logic (lines 214-226) as a function of `total_cumulative`:
returns `(traffic_status, status_color, message)`. -/
def classify (total : Nat) : String × String × String :=
  if total ≤ 10 then ("LOW", "green", "Smooth Traffic Flow")
  else if 10 < total ∧ total ≤ 20 then ("MEDIUM", "orange", "Moderate Traffic Volume")
  else ("HIGH", "red", "🚨 Heavy Traffic Volume")

/-- The `status` object of the emitted record (lines 238-243). -/
structure StatusRec where
  level : String
  color : String
  message : String
  density : Nat
deriving DecidableEq, Repr

/-- The per-frame record emitted on the socket (lines 233-245), minus the
encoded image: the counts dictionary (all six recognized classes) and the
status object whose `density` is `total_cumulative`. -/
structure Emission where
  counts : List (String × Nat)
  status : StatusRec
deriving DecidableEq, Repr

/-- The emitted counts dictionary: one entry per recognized class. -/
def emittedCounts (c : String → Nat) : List (String × Nat) :=
  TARGET_CLASSES.map (fun p => (p.2, c p.2))

/-- `current_density` (line 151): the number of detections in this frame
whose class index is 2, 3, 5 or 7. -/
def current_density (clss : List Nat) : Nat :=
  (clss.filter (fun c => c ∈ [2, 3, 5, 7])).length

/-- Build the emitted record from the counts dictionary: compute
`total_cumulative`, run the alert logic, and assemble counts plus status. -/
def mkEmission (c : String → Nat) : Emission :=
  let total := total_cumulative c
  let st := classify total
  { counts := emittedCounts c
    status := { level := st.1, color := st.2.1, message := st.2.2, density := total } }

/-- This frame's active id set: the track ids of detections whose class is
recognized (ids are added to `active_ids` only after the `continue` skip). -/
def activeIdsOf (dets : List Det) : List Nat :=
  (dets.filter (fun d => (TARGET_CLASSES.lookup d.cls).isSome)).map (fun d => d.track_id)

/-- One full iteration of the `process_video` loop body (lines 113-245)
without interleaved uploads: consume a pending reset, compute
`current_density` (bound but never used afterwards), process each detection
in order, prune stale tracks, and emit. -/
def process_video_cycle (fh : String → Nat) (s : SysState) (dets : List Det) :
    SysState × Emission :=
  let s0 := consumeResetIfPending fh s
  let _cd := current_density (dets.map (fun d => d.cls))
  let s1 := dets.foldl (fun st d => processDetection st.line_y st d) s0
  let s2 := pruneHistory s1 (activeIdsOf dets)
  (s2, mkEmission s2.cumulative_counts)

/-! ### Helper lemmas -/

lemma lookup_mem_targetNames {cls : Nat} {cn : String}
    (h : TARGET_CLASSES.lookup cls = some cn) : cn ∈ targetNames := by
  simp only [TARGET_CLASSES, List.lookup] at h
  simp only [targetNames, TARGET_CLASSES, List.map, List.mem_cons]
  split at h <;> simp_all
  split at h <;> simp_all
  split at h <;> simp_all
  split at h <;> simp_all
  split at h <;> simp_all
  split at h <;> simp_all

lemma sumOverTargets_bump (c : String → Nat) {cn : String} (h : cn ∈ targetNames) :
    sumOverTargets (fun n => if n = cn then c n + 1 else c n) = sumOverTargets c + 1 := by
  simp only [targetNames, TARGET_CLASSES, List.map, List.mem_cons, List.not_mem_nil,
    or_false] at h
  rcases h with rfl | rfl | rfl | rfl | rfl | rfl <;>
    simp [sumOverTargets, targetNames, TARGET_CLASSES] <;> omega

/-- C2 counterexample trace: a single Motorcycle (class 3) crossing the
line over two frames. -/
def motoTrace : List Ev := [.detect ⟨1, 3, 5, 5⟩, .detect ⟨1, 3, 5, 105⟩]

/-- A frame source reporting height 150 for every path (so `line_y = 100`). -/
def fhConst : String → Nat := fun _ => 150

/-! ### Claims -/

/-- C2 counterexample: after a Motorcycle crossing, the total fed to the
classifier is 0 while the sum of the cumulative counts over the entire
recognized class subset is 1 — `total_cumulative` omits Motorcycle. -/
theorem total_cumulative_counterexample :
    total_cumulative (run fhConst (initState fhConst) motoTrace).cumulative_counts = 0 ∧
    sumOverTargets (run fhConst (initState fhConst) motoTrace).cumulative_counts = 1 := by
  constructor <;> decide

/-- C2 (amended): the total fed to the classifier is the sum of the
cumulative counts over Car, Bus, Truck, Person and Bicycle only; adding the
Motorcycle count recovers the sum over the entire recognized class subset. -/
theorem total_cumulative_omits_motorcycle (c : String → Nat) :
    total_cumulative c + c "Motorcycle" = sumOverTargets c := by
  simp only [total_cumulative, sumOverTargets, targetNames, TARGET_CLASSES, List.map,
    List.sum_cons, List.sum_nil]
  omega

/-- C3 counterexample: at total 21 the emitted message is the alert-flagged
string, not the bare string "Heavy Traffic Volume". -/
theorem classify_message_counterexample :
    (classify 21).2.2 ≠ "Heavy Traffic Volume" := by
  decide

/-- C3 (amended): for every non-negative total, the classifier returns LOW,
green, "Smooth Traffic Flow" on 0-10; MEDIUM, orange, "Moderate Traffic
Volume" on 11-20; and HIGH, red, the alert-flagged message
"🚨 Heavy Traffic Volume" on 21 and above. -/
theorem classify_boundaries (total : Nat) :
    (total ≤ 10 → classify total = ("LOW", "green", "Smooth Traffic Flow")) ∧
    (11 ≤ total → total ≤ 20 →
      classify total = ("MEDIUM", "orange", "Moderate Traffic Volume")) ∧
    (21 ≤ total → classify total = ("HIGH", "red", "🚨 Heavy Traffic Volume")) := by
  refine ⟨fun h => ?_, fun h1 h2 => ?_, fun h => ?_⟩
  · simp only [classify]
    rw [if_pos h]
  · simp only [classify]
    rw [if_neg (by omega), if_pos (by omega)]
  · simp only [classify]
    rw [if_neg (by omega), if_neg (by omega)]

/-- Boundary witnesses for `classify_boundaries`: totals 10, 11, 20, 21. -/
theorem classify_boundaries_witness :
    classify 10 = ("LOW", "green", "Smooth Traffic Flow") ∧
    classify 11 = ("MEDIUM", "orange", "Moderate Traffic Volume") ∧
    classify 20 = ("MEDIUM", "orange", "Moderate Traffic Volume") ∧
    classify 21 = ("HIGH", "red", "🚨 Heavy Traffic Volume") :=
  ⟨(classify_boundaries 10).1 (by decide),
   (classify_boundaries 11).2.1 (by decide) (by decide),
   (classify_boundaries 20).2.1 (by decide) (by decide),
   (classify_boundaries 21).2.2 (by decide)⟩

/-- C10: an upload request with no "video" part or with an empty filename
returns status 400 and leaves the shared state exactly as it was. -/
theorem upload_rejects_unchanged (s : SysState) (req : Option String)
    (h : req = none ∨ req = some "") :
    (upload_video req s).1 = 400 ∧ (upload_video req s).2 = s := by
  rcases h with rfl | rfl
  · exact ⟨rfl, rfl⟩
  · exact ⟨rfl, rfl⟩

/-- Witness for `upload_rejects_unchanged` at a missing "video" part. -/
theorem upload_rejects_unchanged_witness :
    (upload_video none (initState fhConst)).1 = 400 ∧
    (upload_video none (initState fhConst)).2 = initState fhConst :=
  upload_rejects_unchanged (initState fhConst) none (Or.inl rfl)

lemma crossing_concat (l : List Pos) (p q : Pos) (ly : Int) :
    crossing (l ++ [p, q]) ly = (decide (p.2 < ly) && decide (ly ≤ q.2)) := by
  have h1 : l ++ [p, q] = (l ++ [p]) ++ [q] := by simp
  rw [crossing, h1]
  rw [if_pos (by simp)]
  rw [List.dropLast_concat, List.getLast?_concat, List.getLast?_concat]

lemma crossing_short {t : List Pos} (ly : Int) (h : t.length < 2) :
    crossing t ly = false := by
  rw [crossing, if_neg (by omega)]

lemma processDetection_no_crossing {s : SysState} {d : Det} (ly : Int)
    (h : crossing (updateTrack (s.track_history d.track_id) (d.cx, d.cy)) ly = false) :
    (processDetection ly s d).cumulative_counts = s.cumulative_counts ∧
    (processDetection ly s d).counted_ids = s.counted_ids := by
  unfold processDetection
  cases TARGET_CLASSES.lookup d.cls with
  | none => exact ⟨rfl, rfl⟩
  | some cn => simp [h]

/-- C4: on the updated window, a crossing fires iff the window ends in two
positions `p, q` with `p.2 < lineY ≤ q.2` (a downward crossing); a window
with fewer than two samples never crosses; and when the crossing test is
false the detection step leaves counts and counted ids untouched, so upward
or lateral motion across the line never increments any count. -/
theorem crossing_iff_downward (ly : Int) (l t : List Pos) (p q : Pos)
    (s : SysState) (d : Det) :
    (crossing (l ++ [p, q]) ly = true ↔ p.2 < ly ∧ ly ≤ q.2) ∧
    (t.length < 2 → crossing t ly = false) ∧
    (crossing (updateTrack (s.track_history d.track_id) (d.cx, d.cy)) s.line_y = false →
      (processDetection s.line_y s d).cumulative_counts = s.cumulative_counts ∧
      (processDetection s.line_y s d).counted_ids = s.counted_ids) := by
  refine ⟨?_, fun h => crossing_short ly h, fun h => processDetection_no_crossing _ h⟩
  rw [crossing_concat]
  simp

/-- Witness for `crossing_iff_downward`: a concrete downward crossing fires
and a one-sample window never crosses. -/
theorem crossing_iff_downward_witness :
    crossing [((0 : Int), (95 : Int)), ((0 : Int), (105 : Int))] 100 = true ∧
    crossing [((0 : Int), (95 : Int))] 100 = false :=
  ⟨(crossing_iff_downward 100 [] [] ((0 : Int), (95 : Int)) ((0 : Int), (105 : Int))
      (initState fhConst) ⟨0, 0, 0, 0⟩).1.mpr (by decide),
   (crossing_iff_downward 100 [] [((0 : Int), (95 : Int))] ((0 : Int), (95 : Int))
      ((0 : Int), (105 : Int)) (initState fhConst) ⟨0, 0, 0, 0⟩).2.1 (by decide)⟩

lemma counted_mem_processDetection (ly : Int) (s : SysState) (d : Det) {id : Nat}
    (h : id ∈ s.counted_ids) : id ∈ (processDetection ly s d).counted_ids := by
  unfold processDetection
  cases TARGET_CLASSES.lookup d.cls with
  | none => exact h
  | some cn =>
    dsimp only
    split
    · split
      · exact h
      · exact List.mem_cons_of_mem _ h
    · exact h

/-- C5: a crossing registration for an already-counted track id is a no-op
on counts and counted ids; a crossing by a not-yet-counted recognized track
increments exactly that class's count by 1 and records the id; and counted
ids persist across every loop event (non-upload), so a track is counted at
most once per epoch. -/
theorem registerCrossing_once (s : SysState) (d : Det) (cn : String)
    (fh : String → Nat) (e : Ev) :
    (d.track_id ∈ s.counted_ids →
      (processDetection s.line_y s d).cumulative_counts = s.cumulative_counts ∧
      (processDetection s.line_y s d).counted_ids = s.counted_ids) ∧
    (TARGET_CLASSES.lookup d.cls = some cn →
     crossing (updateTrack (s.track_history d.track_id) (d.cx, d.cy)) s.line_y = true →
     d.track_id ∉ s.counted_ids →
      (processDetection s.line_y s d).cumulative_counts cn = s.cumulative_counts cn + 1 ∧
      (∀ n, n ≠ cn →
        (processDetection s.line_y s d).cumulative_counts n = s.cumulative_counts n) ∧
      (processDetection s.line_y s d).counted_ids = d.track_id :: s.counted_ids) ∧
    (∀ id, id ∈ s.counted_ids → e.isUpload = false → id ∈ (step fh s e).counted_ids) := by
  refine ⟨fun hmem => ?_, fun hl hcr hnm => ?_, fun id hid hne => ?_⟩
  · unfold processDetection
    cases TARGET_CLASSES.lookup d.cls with
    | none => exact ⟨rfl, rfl⟩
    | some c => simp [hmem]
  · refine ⟨?_, fun n hn => ?_, ?_⟩
    · simp [processDetection, hl, hcr, hnm]
    · simp [processDetection, hl, hcr, hnm, hn]
    · simp [processDetection, hl, hcr, hnm]
  · cases e with
    | upload req => simp [Ev.isUpload] at hne
    | consumeReset =>
      simp only [step, consumeResetIfPending]
      split <;> exact hid
    | detect d2 => exact counted_mem_processDetection s.line_y s d2 hid
    | prune a => exact hid

/-- Witness for `registerCrossing_once`: track 1 (class Car) crosses the
line on its second frame and the Car count becomes 1; a second straddling
frame for the now-counted track leaves the counts unchanged. -/
theorem registerCrossing_once_witness :
    (processDetection
        (run fhConst (initState fhConst) [.detect ⟨1, 2, 5, 5⟩]).line_y
        (run fhConst (initState fhConst) [.detect ⟨1, 2, 5, 5⟩])
        ⟨1, 2, 5, 105⟩).cumulative_counts "Car" =
      (run fhConst (initState fhConst) [.detect ⟨1, 2, 5, 5⟩]).cumulative_counts "Car" + 1 ∧
    (processDetection
        (run fhConst (initState fhConst) [.detect ⟨1, 2, 5, 5⟩, .detect ⟨1, 2, 5, 105⟩]).line_y
        (run fhConst (initState fhConst) [.detect ⟨1, 2, 5, 5⟩, .detect ⟨1, 2, 5, 105⟩])
        ⟨1, 2, 5, 110⟩).cumulative_counts =
      (run fhConst (initState fhConst) [.detect ⟨1, 2, 5, 5⟩, .detect ⟨1, 2, 5, 105⟩]).cumulative_counts :=
  ⟨((registerCrossing_once (run fhConst (initState fhConst) [.detect ⟨1, 2, 5, 5⟩])
      ⟨1, 2, 5, 105⟩ "Car" fhConst .consumeReset).2.1 (by decide) (by decide) (by decide)).1,
   ((registerCrossing_once
      (run fhConst (initState fhConst) [.detect ⟨1, 2, 5, 5⟩, .detect ⟨1, 2, 5, 105⟩])
      ⟨1, 2, 5, 110⟩ "Car" fhConst .consumeReset).1 (by decide)).1⟩

/-- C6: no loop event ever decreases `sum(cumulative_counts.values())` —
reset consumption and pruning leave it unchanged and a detection preserves
or increments it — and the clearing performed by a successful upload (the
reset request) sets it to exactly 0, beginning a new epoch. -/
theorem countsSum_monotone (fh : String → Nat) (s : SysState) (d : Det)
    (a : List Nat) (fn : String) :
    sumOverTargets (step fh s .consumeReset).cumulative_counts =
      sumOverTargets s.cumulative_counts ∧
    sumOverTargets s.cumulative_counts ≤
      sumOverTargets (step fh s (.detect d)).cumulative_counts ∧
    sumOverTargets (step fh s (.prune a)).cumulative_counts =
      sumOverTargets s.cumulative_counts ∧
    (fn ≠ "" →
      sumOverTargets (step fh s (.upload (some fn))).cumulative_counts = 0) := by
  refine ⟨?_, ?_, ?_, fun h => ?_⟩
  · simp only [step, consumeResetIfPending]
    split <;> rfl
  · simp only [step]
    unfold processDetection
    cases hl : TARGET_CLASSES.lookup d.cls with
    | none => exact le_refl _
    | some cn =>
      dsimp only
      split
      · split
        · exact le_refl _
        · dsimp only
          rw [sumOverTargets_bump s.cumulative_counts (lookup_mem_targetNames hl)]
          omega
      · exact le_refl _
  · rfl
  · simp only [step, upload_video]
    rw [if_neg h]
    simp [sumOverTargets, targetNames, TARGET_CLASSES]

/-- Witness for `countsSum_monotone`: a successful upload zeroes the sum. -/
theorem countsSum_monotone_witness :
    sumOverTargets
      (step fhConst (run fhConst (initState fhConst) motoTrace)
        (.upload (some "new.mp4"))).cumulative_counts = 0 :=
  (countsSum_monotone fhConst (run fhConst (initState fhConst) motoTrace)
    ⟨0, 0, 0, 0⟩ [] "new.mp4").2.2.2 (by decide)

lemma updateTrack_length {t : List Pos} (p : Pos) (h : t.length ≤ 30) :
    (updateTrack t p).length ≤ 30 := by
  simp only [updateTrack]
  split
  · simp only [List.length_tail, List.length_append, List.length_cons, List.length_nil]
    omega
  · simp only [List.length_append, List.length_cons, List.length_nil] at *
    omega

lemma step_window_le (fh : String → Nat) (s : SysState) (e : Ev)
    (h : ∀ id, (s.track_history id).length ≤ 30) :
    ∀ id, ((step fh s e).track_history id).length ≤ 30 := by
  intro id
  cases e with
  | upload req =>
    cases req with
    | none => exact h id
    | some fn =>
      simp only [step, upload_video]
      split
      · exact h id
      · simp
  | consumeReset =>
    simp only [step, consumeResetIfPending]
    split <;> exact h id
  | detect d =>
    simp only [step]
    unfold processDetection
    cases TARGET_CLASSES.lookup d.cls with
    | none => exact h id
    | some cn =>
      dsimp only
      have hup : (if id = d.track_id
          then updateTrack (s.track_history d.track_id) (d.cx, d.cy)
          else s.track_history id).length ≤ 30 := by
        split
        · exact updateTrack_length _ (h d.track_id)
        · exact h id
      split
      · split
        · exact hup
        · exact hup
      · exact hup
  | prune a =>
    simp only [step, pruneHistory]
    split
    · exact h id
    · simp

lemma run_window_le (fh : String → Nat) :
    ∀ (evs : List Ev) (s : SysState),
      (∀ id, (s.track_history id).length ≤ 30) →
      ∀ id, ((run fh s evs).track_history id).length ≤ 30 := by
  intro evs
  induction evs with
  | nil => exact fun s h => h
  | cons e evs ih => exact fun s h => ih (step fh s e) (step_window_le fh s e h)

/-- C7: the history update appends the new position when the window holds
fewer than 30 entries and otherwise appends and evicts the oldest entry,
and along every event sequence from the initial state no track's window
ever exceeds 30 entries. -/
theorem window_bounded (fh : String → Nat) (evs : List Ev) (t : List Pos) (p : Pos) :
    (t.length < 30 → updateTrack t p = t ++ [p]) ∧
    (t.length = 30 → updateTrack t p = (t ++ [p]).tail) ∧
    (∀ id, ((run fh (initState fh) evs).track_history id).length ≤ 30) := by
  refine ⟨fun h => ?_, fun h => ?_, ?_⟩
  · simp only [updateTrack]
    rw [if_neg (by simp only [List.length_append, List.length_cons, List.length_nil]; omega)]
  · simp only [updateTrack]
    rw [if_pos (by simp only [List.length_append, List.length_cons, List.length_nil]; omega)]
  · exact run_window_le fh evs (initState fh) (fun id => by simp [initState])

/-- Witness for `window_bounded`: the append case on a short window and the
bound along a concrete trace. -/
theorem window_bounded_witness :
    updateTrack [((5 : Int), (5 : Int))] ((5 : Int), (105 : Int)) =
      [((5 : Int), (5 : Int)), ((5 : Int), (105 : Int))] ∧
    ((run fhConst (initState fhConst) motoTrace).track_history 1).length ≤ 30 :=
  ⟨(window_bounded fhConst motoTrace [((5 : Int), (5 : Int))] ((5 : Int), (105 : Int))).1
      (by decide),
   (window_bounded fhConst motoTrace [((5 : Int), (5 : Int))] ((5 : Int), (105 : Int))).2.2 1⟩

/-- C8: after pruning with this frame's active id set, the history store
holds no id outside the active set, every active id keeps its prior window
unchanged, and the counted-id set (and the counts) are left untouched. -/
theorem prune_spec (fh : String → Nat) (s : SysState) (a : List Nat) :
    (∀ id, id ∉ a → (step fh s (.prune a)).track_history id = []) ∧
    (∀ id, id ∈ a → (step fh s (.prune a)).track_history id = s.track_history id) ∧
    (step fh s (.prune a)).counted_ids = s.counted_ids ∧
    (step fh s (.prune a)).cumulative_counts = s.cumulative_counts := by
  refine ⟨fun id hid => ?_, fun id hid => ?_, rfl, rfl⟩
  · simp only [step, pruneHistory]
    rw [if_neg hid]
  · simp only [step, pruneHistory]
    rw [if_pos hid]

/-- Witness for `prune_spec`: pruning with active set `[1]` clears id 2 and
keeps id 1's window in a concrete state. -/
theorem prune_spec_witness :
    (step fhConst (run fhConst (initState fhConst) motoTrace) (.prune [1])).track_history 2
      = [] ∧
    (step fhConst (run fhConst (initState fhConst) motoTrace) (.prune [1])).track_history 1
      = (run fhConst (initState fhConst) motoTrace).track_history 1 :=
  ⟨(prune_spec fhConst (run fhConst (initState fhConst) motoTrace) [1]).1 2 (by decide),
   (prune_spec fhConst (run fhConst (initState fhConst) motoTrace) [1]).2.1 1 (by decide)⟩

/-- The aggregate over Car, Bus, Truck, Person and Bicycle read back from
the emitted counts dictionary. -/
def fiveSum (l : List (String × Nat)) : Nat :=
  (l.lookup "Car").getD 0 + (l.lookup "Bus").getD 0 + (l.lookup "Truck").getD 0 +
  (l.lookup "Person").getD 0 + (l.lookup "Bicycle").getD 0

/-- C9: every emitted record is a function of the post-frame cumulative
counts alone; its `status.density` equals the sum of the emitted per-class
cumulative counts over Car, Bus, Truck, Person and Bicycle (the same total
that drove the classifier); and two frames leading to the same cumulative
counts emit identical records, so the per-frame `current_density` never
influences any emitted field. -/
theorem density_is_cumulative (fh : String → Nat) (s : SysState)
    (dets dets2 : List Det) :
    (process_video_cycle fh s dets).2 =
      mkEmission (process_video_cycle fh s dets).1.cumulative_counts ∧
    (process_video_cycle fh s dets).2.status.density =
      fiveSum (process_video_cycle fh s dets).2.counts ∧
    ((process_video_cycle fh s dets).1.cumulative_counts =
        (process_video_cycle fh s dets2).1.cumulative_counts →
      (process_video_cycle fh s dets2).2 = (process_video_cycle fh s dets).2) := by
  refine ⟨rfl, ?_, fun h => ?_⟩
  · simp [process_video_cycle, mkEmission, emittedCounts, fiveSum, TARGET_CLASSES,
      List.lookup, total_cumulative]
  · show mkEmission (process_video_cycle fh s dets2).1.cumulative_counts =
      mkEmission (process_video_cycle fh s dets).1.cumulative_counts
    rw [h]

/-- Witness for `density_is_cumulative`: an empty frame and a one-detection
frame with a different `current_density` but the same cumulative counts
emit the same record. -/
theorem density_is_cumulative_witness :
    (process_video_cycle fhConst (initState fhConst) [⟨1, 2, 5, 5⟩]).2 =
      (process_video_cycle fhConst (initState fhConst) []).2 ∧
    current_density (List.map (fun d => d.cls) [(⟨1, 2, 5, 5⟩ : Det)]) ≠
      current_density (List.map (fun d => d.cls) ([] : List Det)) :=
  ⟨(density_is_cumulative fhConst (initState fhConst) [] [⟨1, 2, 5, 5⟩]).2.2 rfl,
   by decide⟩

/-- A frame source for the reset scenario: the newly uploaded video has
height 300, every other source height 150. -/
def fhDemo : String → Nat := fun src => if src = "uploads/b.mp4" then 300 else 150

/-- C1 counterexample trace: the loop finds no reset pending, processes one
detection of the current frame, the upload lands mid-frame (clearing state
and setting the flag), the loop finishes the frame with another detection
and the prune, and only then consumes the reset. -/
def resetTrace : List Ev :=
  [.consumeReset, .detect ⟨1, 2, 5, 5⟩, .upload (some "b.mp4"),
   .detect ⟨2, 2, 7, 7⟩, .prune [1, 2]]

/-- The reset postcondition exactly as the claim states it: all cumulative
counts zero, counted ids empty, track history empty, and `line_y` derived
from the current source's frame height. -/
def resetObserved (fh : String → Nat) (s : SysState) : Prop :=
  (∀ n ∈ targetNames, s.cumulative_counts n = 0) ∧
  s.counted_ids = [] ∧
  (∀ id, s.track_history id = []) ∧
  s.line_y = lineYOf (fh s.current_video_source)

/-- C1 counterexample: along `resetTrace` the reset is pending when the
loop next reaches its consumption step, yet after `consumeResetIfPending`
returns the track-history store still holds an entry recorded against the
old source (id 2), so the five reset steps are not observed as one atomic
unit. -/
theorem reset_atomicity_counterexample :
    (run fhDemo (initState fhDemo) resetTrace).video_needs_reset = true ∧
    ¬ resetObserved fhDemo
        (step fhDemo (run fhDemo (initState fhDemo) resetTrace) .consumeReset) := by
  refine ⟨rfl, fun h => absurd (h.2.2.1 2) (by decide)⟩

/-- C1 (amended): the five reset steps are split over two atomic
lock-protected sections rather than one.  The upload handler atomically
clears the counts, the counted-id set and the track history while setting
the new source and the pending flag; the loop's consumption step atomically
rebinds the source, recomputes `line_y` from the new source's frame height
and clears the flag, leaving counts, counted ids and history untouched — so
state recorded between the request and its consumption survives the
consumption. -/
theorem reset_split_protocol (fh : String → Nat) (s : SysState) (fn : String) :
    (s.video_needs_reset = true →
      (consumeResetIfPending fh s).video_needs_reset = false ∧
      (consumeResetIfPending fh s).bound_source = s.current_video_source ∧
      (consumeResetIfPending fh s).line_y = lineYOf (fh s.current_video_source) ∧
      (consumeResetIfPending fh s).cumulative_counts = s.cumulative_counts ∧
      (consumeResetIfPending fh s).counted_ids = s.counted_ids ∧
      (consumeResetIfPending fh s).track_history = s.track_history) ∧
    (fn ≠ "" →
      (∀ n, ((upload_video (some fn) s).2).cumulative_counts n = 0) ∧
      ((upload_video (some fn) s).2).counted_ids = [] ∧
      (∀ id, ((upload_video (some fn) s).2).track_history id = []) ∧
      ((upload_video (some fn) s).2).video_needs_reset = true ∧
      ((upload_video (some fn) s).2).current_video_source = "uploads/" ++ fn) := by
  refine ⟨fun h => ?_, fun h => ?_⟩
  · simp [consumeResetIfPending, h]
  · simp [upload_video, h]

/-- Witness for `reset_split_protocol`: a pending reset is consumed with
`line_y` recomputed, and a successful upload clears the counted ids. -/
theorem reset_split_protocol_witness :
    (consumeResetIfPending fhDemo
        { initState fhDemo with video_needs_reset := true }).video_needs_reset = false ∧
    ((upload_video (some "b.mp4") (initState fhDemo)).2).counted_ids = [] :=
  ⟨((reset_split_protocol fhDemo
      { initState fhDemo with video_needs_reset := true } "b.mp4").1 rfl).1,
   ((reset_split_protocol fhDemo (initState fhDemo) "b.mp4").2 (by decide)).2.1⟩

end AITraffic
